import Mathlib

/-!
Shallow embedding of `src/coach_bot.py` (telegram_ai_assistant).

The program is a Telegram bot relaying multi-modal messages to an OpenAI
assistant thread.  Each Python handler is modelled as a pure Lean function
over an explicit session store, an explicit filesystem (for the voice path),
and a `Backend` record of fallible external operations (`Except`-valued,
modelling Python exceptions raised by the OpenAI / Telegram / pydub calls).
A handler's observable effects (store writes, messages appended to the
thread, replies sent, exception escaping the handler) are returned in a
result record.
-/

namespace CoachBot

/-- Wall-clock instant.  `day` is the calendar-date ordinal
(`datetime.date()`), `tod` the time within the day; `render` models
`str(datetime)`.  The SQLite `last_interaction` column stores the ISO
rendering and `datetime.fromisoformat` recovers the instant, so the model
stores the parsed value directly; `none` models a NULL (or empty) column. -/
structure DateTime where
  day : Nat
  tod : Nat
deriving DecidableEq, Repr

def DateTime.render (t : DateTime) : String :=
  toString t.day ++ "T" ++ toString t.tod

/-- `datetime.date()`: the calendar-date component. -/
def DateTime.date (t : DateTime) : Nat := t.day

/-- One row of the `users` table (`init_db` in coach_bot.py):
`chat_id TEXT PRIMARY KEY, thread_id TEXT NOT NULL, created_at, last_interaction`. -/
structure Session where
  chat_id : String
  thread_id : String
  created_at : DateTime
  last_interaction : Option DateTime
deriving DecidableEq, Repr

/-- The users table, in row order. -/
abbrev Store := List Session

/-- `is_user_subscribed`: `SELECT thread_id FROM users WHERE chat_id = ?`,
then `result is not None`. -/
def is_user_subscribed (db : Store) (chat_id : String) : Bool :=
  (db.find? (fun u => u.chat_id == chat_id)).isSome

/-- `get_user_thread`: same SELECT, returning `result[0] if result else None`. -/
def get_user_thread (db : Store) (chat_id : String) : Option String :=
  (db.find? (fun u => u.chat_id == chat_id)).map (fun u => u.thread_id)

/-- `add_user`: `INSERT INTO users (chat_id, thread_id) VALUES (?, ?)`;
`created_at` and `last_interaction` take `DEFAULT CURRENT_TIMESTAMP`. -/
def add_user (db : Store) (chat_id thread_id : String) (now : DateTime) : Store :=
  db ++ [⟨chat_id, thread_id, now, some now⟩]

/-- `update_last_interaction` (also the inline UPDATE of `morning_check`):
`UPDATE users SET last_interaction = ? WHERE chat_id = ?`. -/
def update_last_interaction (db : Store) (chat_id : String) (now : DateTime) : Store :=
  db.map (fun u =>
    if u.chat_id == chat_id then { u with last_interaction := some now } else u)

/-- One content item of a thread message, as built by the handlers: a bare
string content is a single `text` part; the image handler adds an
`image_url` part; the file handler attaches an uploaded file id
(`attachments=[{"file_id": ..., "tools": [{"type": "file_search"}]}]`). -/
inductive Part where
  | text (s : String)
  | image_url (u : String)
  | file_ref (fid : String)
deriving DecidableEq, Repr

/-- A message as returned by `client.beta.threads.messages.list`:
its producing run's id and its content items (`parts.head` models
`content[0].text.value`). -/
structure ThreadMsg where
  run_id : String
  parts : List String
deriving DecidableEq, Repr

/-- The external collaborators (OpenAI client, Telegram file API, pydub),
each call `Except`-valued: `.error e` models the call raising exception `e`. -/
structure Backend where
  /-- `client.beta.threads.messages.create(thread_id, role="user", content=...)`. -/
  msgCreate : Option String → List Part → Except String Unit
  /-- `client.beta.threads.runs.create_and_poll(...)`; `.ok rid` yields `run.id`. -/
  runCreate : Option String → Except String String
  /-- `client.beta.threads.messages.list(thread_id)`: the thread's messages in
  listing order.  The text handler passes `run_id=run.id`, which the server
  realises as filtering this same listing by `run_id`, order preserved. -/
  msgsList : Option String → Except String (List ThreadMsg)
  /-- `context.bot.get_file(file_id)`; `.ok` yields the remote `file_path` URL. -/
  getFile : String → Except String String
  /-- `voice_file.download_to_drive(ogg_path)`: writes the .ogg artifact. -/
  download : String → Except String Unit
  /-- `AudioSegment.from_file(ogg_path, format="ogg")`. -/
  audioFrom : String → Except String Unit
  /-- `audio.export(mp3_path, format="mp3")`: writes the .mp3 artifact. -/
  audioExport : String → Except String Unit
  /-- `client.audio.translations.create(model="whisper-1", file=...)`;
  `.ok` yields `transcript.text`. -/
  translate : String → Except String String
  /-- `file_info.download_as_bytearray()`. -/
  downloadBytes : String → Except String Unit
  /-- `client.files.create(file=..., purpose="assistants")`; `.ok` yields the
  uploaded file's id. -/
  filesCreate : String → Except String String

/-- `thread_messages[0].content[0].text.value` of the text handler:
raises IndexError when the (run-filtered) listing, or its first message's
content, is empty. -/
def extractFirst (msgs : List ThreadMsg) : Except String String :=
  match msgs with
  | [] => .error "IndexError: list index out of range"
  | m :: _ =>
    match m.parts with
    | [] => .error "IndexError: list index out of range"
    | p :: _ => .ok p

/-- The extraction loop of the image/voice/file handlers:
`response = ""` then `for msg in thread_messages.data: if msg.run_id == run.id:
response = msg.content[0].text.value` — each match overwrites `response`. -/
def extractLoop (msgs : List ThreadMsg) (rid : String) (acc : String) : Except String String :=
  match msgs with
  | [] => .ok acc
  | m :: rest =>
    if m.run_id == rid then
      match m.parts with
      | [] => .error "IndexError: list index out of range"
      | p :: _ => extractLoop rest rid p
    else extractLoop rest rid acc

/-- Reply sent by every media handler to an unsubscribed chat. -/
def dumbReply : String := "I am just a dumb bot.. oh uh.."

/-- Result of `handle_text_message`: final store, messages appended to the
thread, replies sent, and the exception escaping the handler (if any) —
this handler has no try/except, so backend failures escape it. -/
structure TextResult where
  db : Store
  sent : List (List Part)
  replies : List String
  escaped : Option String
deriving DecidableEq, Repr

/-- `handle_text_message` (coach_bot.py lines 233–264). -/
def handle_text_message (db0 : Store) (b : Backend) (chat_id : String)
    (now : DateTime) (text : String) : TextResult :=
  if !(is_user_subscribed db0 chat_id) then
    ⟨db0, [], [dumbReply], none⟩
  else
    let db := update_last_interaction db0 chat_id now
    let tid := get_user_thread db chat_id
    let t := DateTime.render now ++ " - " ++ text
    match b.msgCreate tid [Part.text t] with
    | .error e => ⟨db, [], [], some e⟩
    | .ok _ =>
      match b.runCreate tid with
      | .error e => ⟨db, [[Part.text t]], [], some e⟩
      | .ok rid =>
        match b.msgsList tid with
        | .error e => ⟨db, [[Part.text t]], [], some e⟩
        | .ok l =>
          match extractFirst (l.filter (fun m => m.run_id == rid)) with
          | .error e => ⟨db, [[Part.text t]], [], some e⟩
          | .ok response => ⟨db, [[Part.text t]], [response], none⟩

/-- One `PhotoSize` variant of a Telegram photo. -/
structure Photo where
  file_id : String
  file_size : Nat
deriving DecidableEq, Repr

/-- `max(update.message.photo, key=lambda x: x.file_size)`: the first maximal
element; raises ValueError on an empty sequence (caught by the handler). -/
def maxPhoto (l : List Photo) : Except String Photo :=
  match l with
  | [] => .error "ValueError: max() arg is an empty sequence"
  | p :: rest =>
    .ok (rest.foldl (fun best q => if q.file_size > best.file_size then q else best) p)

/-- Result of a handler whose whole body is inside try/except: no exception
can escape it, so there is no `escaped` field. -/
structure ImageResult where
  db : Store
  sent : List (List Part)
  replies : List String
deriving DecidableEq, Repr

def imageErrReply : String := "Sorry, I encountered an error processing your image."

/-- `handle_image_message` (coach_bot.py lines 267–315). -/
def handle_image_message (db0 : Store) (b : Backend) (chat_id : String)
    (now : DateTime) (photos : List Photo) (caption : Option String) : ImageResult :=
  if !(is_user_subscribed db0 chat_id) then
    ⟨db0, [], [dumbReply]⟩
  else
    let db := update_last_interaction db0 chat_id now
    let tid := get_user_thread db chat_id
    match maxPhoto photos with
    | .error _ => ⟨db, [], [imageErrReply]⟩
    | .ok photo =>
      match b.getFile photo.file_id with
      | .error _ => ⟨db, [], [imageErrReply]⟩
      | .ok file_url =>
        let message_text := DateTime.render now ++ " - " ++ caption.getD "Image received"
        let env := [Part.text message_text, Part.image_url file_url]
        match b.msgCreate tid env with
        | .error _ => ⟨db, [], [imageErrReply]⟩
        | .ok _ =>
          match b.runCreate tid with
          | .error _ => ⟨db, [env], [imageErrReply]⟩
          | .ok rid =>
            match b.msgsList tid with
            | .error _ => ⟨db, [env], [imageErrReply]⟩
            | .ok l =>
              match extractLoop l rid "" with
              | .error _ => ⟨db, [env], [imageErrReply]⟩
              | .ok response => ⟨db, [env], [response]⟩

/-- Result of `handle_voice_message`: additionally tracks the filesystem
(the set of temporary artifact paths present), since the claim about
artifact cleanup is about it. -/
structure VoiceResult where
  db : Store
  fs : List String
  sent : List (List Part)
  replies : List String
deriving DecidableEq, Repr

def voiceErrReply (e : String) : String :=
  "Sorry, I encountered an error processing your voice message: " ++ e

/-- `os.remove(p)` on the model filesystem. -/
def removeFile (fs : List String) (p : String) : List String :=
  fs.filter (fun q => q != p)

/-- `handle_voice_message` (coach_bot.py lines 318–376).  Note the two
`os.remove` calls sit at the end of the `try` block, after the reply is
sent; the `except` block does not remove the artifacts. -/
def handle_voice_message (db0 : Store) (fs0 : List String) (b : Backend)
    (chat_id : String) (now : DateTime) (file_id base_filename : String) : VoiceResult :=
  if !(is_user_subscribed db0 chat_id) then
    ⟨db0, fs0, [], [dumbReply]⟩
  else
    let db := update_last_interaction db0 chat_id now
    let tid := get_user_thread db chat_id
    let ogg_path := base_filename ++ ".ogg"
    let mp3_path := base_filename ++ ".mp3"
    match b.getFile file_id with
    | .error e => ⟨db, fs0, [], [voiceErrReply e]⟩
    | .ok _ =>
      match b.download file_id with
      | .error e => ⟨db, fs0, [], [voiceErrReply e]⟩
      | .ok _ =>
        let fs1 := fs0 ++ [ogg_path]
        match b.audioFrom ogg_path with
        | .error e => ⟨db, fs1, [], [voiceErrReply e]⟩
        | .ok _ =>
          match b.audioExport mp3_path with
          | .error e => ⟨db, fs1, [], [voiceErrReply e]⟩
          | .ok _ =>
            let fs2 := fs1 ++ [mp3_path]
            match b.translate mp3_path with
            | .error e => ⟨db, fs2, [], [voiceErrReply e]⟩
            | .ok transcript =>
              let message_text := DateTime.render now ++ " - " ++ transcript
              let env := [Part.text message_text]
              match b.msgCreate tid env with
              | .error e => ⟨db, fs2, [], [voiceErrReply e]⟩
              | .ok _ =>
                match b.runCreate tid with
                | .error e => ⟨db, fs2, [env], [voiceErrReply e]⟩
                | .ok rid =>
                  match b.msgsList tid with
                  | .error e => ⟨db, fs2, [env], [voiceErrReply e]⟩
                  | .ok l =>
                    match extractLoop l rid "" with
                    | .error e => ⟨db, fs2, [env], [voiceErrReply e]⟩
                    | .ok response =>
                      ⟨db, removeFile (removeFile fs2 ogg_path) mp3_path,
                        [env], [response]⟩

structure FileResult where
  db : Store
  sent : List (List Part)
  replies : List String
deriving DecidableEq, Repr

def fileErrReply (e : String) : String :=
  "Sorry, I encountered an error processing your file: " ++ e

/-- `handle_file_upload` (coach_bot.py lines 379–431). -/
def handle_file_upload (db0 : Store) (b : Backend) (chat_id : String)
    (now : DateTime) (doc_id : String) (caption : Option String) : FileResult :=
  if !(is_user_subscribed db0 chat_id) then
    ⟨db0, [], [dumbReply]⟩
  else
    let db := update_last_interaction db0 chat_id now
    let tid := get_user_thread db chat_id
    match b.getFile doc_id with
    | .error e => ⟨db, [], [fileErrReply e]⟩
    | .ok _ =>
      let message_text := DateTime.render now ++ " - " ++ caption.getD "File uploaded"
      match b.downloadBytes doc_id with
      | .error e => ⟨db, [], [fileErrReply e]⟩
      | .ok _ =>
        match b.filesCreate doc_id with
        | .error e => ⟨db, [], [fileErrReply e]⟩
        | .ok fid =>
          let env := [Part.text message_text, Part.file_ref fid]
          match b.msgCreate tid env with
          | .error e => ⟨db, [], [fileErrReply e]⟩
          | .ok _ =>
            match b.runCreate tid with
            | .error e => ⟨db, [env], [fileErrReply e]⟩
            | .ok rid =>
              match b.msgsList tid with
              | .error e => ⟨db, [env], [fileErrReply e]⟩
              | .ok l =>
                match extractLoop l rid "" with
                | .error e => ⟨db, [env], [fileErrReply e]⟩
                | .ok response => ⟨db, [env], [response]⟩

def helpRefusal : String := "Please subscribe first using /subscribe <password>"

def helpText : String :=
  "Available commands: /start, /help, /subscribe <password>; you can send text, images, voice"

/-- `help_command` (coach_bot.py lines 211–230): replies only, never touches
the store. -/
def help_command (db : Store) (chat_id : String) : List String :=
  if !(is_user_subscribed db chat_id) then [helpRefusal] else [helpText]

structure SubscribeResult where
  db : Store
  replies : List String
  /-- whether `client.beta.threads.create()` was called. -/
  threadCreated : Bool
deriving DecidableEq, Repr

/-- `subscribe_command` (coach_bot.py lines 187–208).  `new_thread_id` is the
id the backend would assign if a thread is created. -/
def subscribe_command (db : Store) (args : List String) (service_password : String)
    (chat_id : String) (new_thread_id : String) (now : DateTime) : SubscribeResult :=
  match args with
  | [arg] =>
    if arg != service_password then
      ⟨db, ["Invalid password. Please try again."], false⟩
    else if is_user_subscribed db chat_id then
      ⟨db, ["You are already subscribed!"], false⟩
    else
      ⟨add_user db chat_id new_thread_id now,
        ["Successfully subscribed! You can now use the AI assistant."], true⟩
  | _ => ⟨db, ["Usage: /subscribe <password>"], false⟩

/-- The fixed re-engagement message of `morning_check`. -/
def morning_message (now : DateTime) : String :=
  DateTime.render now ++
    " - Morning check-in: Keeping this thread active. What does my day look like today?"

/-- State of the `morning_check` scan: the evolving users table and the
chat_ids for which a dispatch was attempted (the try block entered). -/
structure ScanResult where
  db : Store
  attempted : List String
deriving DecidableEq, Repr

/-- One iteration of the `for user in users` loop of `morning_check`:
skip a NULL/empty `last_interaction`; dispatch only when its calendar date
is strictly before today; the try/except catches any backend failure and
only on full success updates the row's `last_interaction`. -/
def morning_step (b : Backend) (now : DateTime) (st : ScanResult) (u : Session) :
    ScanResult :=
  match u.last_interaction with
  | none => st
  | some li =>
    if li.date < now.date then
      match b.msgCreate (some u.thread_id) [Part.text (morning_message now)] with
      | .error _ => ⟨st.db, st.attempted ++ [u.chat_id]⟩
      | .ok _ =>
        match b.runCreate (some u.thread_id) with
        | .error _ => ⟨st.db, st.attempted ++ [u.chat_id]⟩
        | .ok _ =>
          ⟨update_last_interaction st.db u.chat_id now, st.attempted ++ [u.chat_id]⟩
    else st

/-- `morning_check` (coach_bot.py lines 79–131): the rows are fetched once
up front, then iterated; updates go to the live table. -/
def morning_check (db : Store) (b : Backend) (now : DateTime) : ScanResult :=
  db.foldl (morning_step b now) ⟨db, []⟩

/-- Whether `morning_check` would dispatch for row `u`:
`last_interaction` present and its date strictly before today's. -/
def due (now : DateTime) (u : Session) : Bool :=
  match u.last_interaction with
  | none => false
  | some li => li.date < now.date

/-- Whether an `Except`-valued call succeeded. -/
def exOk {ε α : Type} (e : Except ε α) : Bool :=
  match e with
  | .ok _ => true
  | .error _ => false

/-- Whether both backend calls of `morning_check`'s try block succeed for
row `u` (so the row's `last_interaction` gets updated). -/
def dispatchOk (b : Backend) (now : DateTime) (u : Session) : Bool :=
  exOk (b.msgCreate (some u.thread_id) [Part.text (morning_message now)])
    && exOk (b.runCreate (some u.thread_id))

/-- `SELECT ... WHERE chat_id = ?`: the first row with this chat_id. -/
def lookupRow (db : Store) (cid : String) : Option Session :=
  db.find? (fun u => u.chat_id == cid)

/-! ### Concrete fixtures for counterexamples and witnesses -/

/-- A subscribed session. -/
def sess1 : Session := ⟨"c1", "t1", ⟨1, 0⟩, some ⟨1, 0⟩⟩

def db1 : Store := [sess1]

/-- A backend on which every external call succeeds. -/
def okBackend : Backend where
  msgCreate := fun _ _ => .ok ()
  runCreate := fun _ => .ok "r1"
  msgsList := fun _ => .ok [⟨"r1", ["pong"]⟩]
  getFile := fun _ => .ok "url"
  download := fun _ => .ok ()
  audioFrom := fun _ => .ok ()
  audioExport := fun _ => .ok ()
  translate := fun _ => .ok "hi"
  downloadBytes := fun _ => .ok ()
  filesCreate := fun _ => .ok "f1"

/-- Backend whose transcription call raises after transcoding succeeded. -/
def failTranslateBackend : Backend :=
  { okBackend with translate := fun _ => .error "transcription failed" }

/-- Backend whose message-append call raises. -/
def failMsgBackend : Backend :=
  { okBackend with msgCreate := fun _ _ => .error "boom" }

/-- Backend whose completed run produces no message tagged with the run id. -/
def noMatchBackend : Backend :=
  { okBackend with msgsList := fun _ => .ok [⟨"other", ["stale"]⟩] }

/-- Backend whose run produces two messages tagged with the run id. -/
def twoMatchBackend : Backend :=
  { okBackend with
    msgsList := fun _ => .ok [⟨"r1", ["first"]⟩, ⟨"r1", ["second"]⟩] }

/-! ### Helper lemmas -/

lemma is_user_subscribed_iff (db : Store) (cid : String) :
    is_user_subscribed db cid = true ↔ cid ∈ db.map Session.chat_id := by
  unfold is_user_subscribed
  rw [List.find?_isSome]
  simp [List.mem_map]

lemma extractLoop_nomatch (msgs : List ThreadMsg) (rid acc : String)
    (h : ∀ m ∈ msgs, (m.run_id == rid) = false) :
    extractLoop msgs rid acc = .ok acc := by
  induction msgs with
  | nil => rfl
  | cons m rest ih =>
    have hm := h m (List.mem_cons_self m rest)
    simp only [extractLoop, hm, Bool.false_eq_true, if_neg, ite_false]
    exact ih (fun x hx => h x (List.mem_cons_of_mem m hx))

/-! ### Claims -/

/-- Claim C1 (code bug): the spec requires both transcoded voice artifacts
to be removed on every failure path, but when transcription fails after
transcoding succeeded, `handle_voice_message`'s except-block sends an
apology without removing them (`os.remove` only runs at the end of the try
block): both the .ogg and the .mp3 are still on disk when the handler
returns. -/
theorem voice_artifacts_leak_on_transcription_failure :
    (handle_voice_message db1 [] failTranslateBackend "c1" ⟨2, 5⟩ "v1" "voice_1").fs
        = ["voice_1.ogg", "voice_1.mp3"]
    ∧ (handle_voice_message db1 [] failTranslateBackend "c1" ⟨2, 5⟩ "v1" "voice_1").replies
        = [voiceErrReply "transcription failed"] :=
  ⟨rfl, rfl⟩

/-- Claim C5: subscribing an already-subscribed chat_id with the correct
secret replies with the already-subscribed notice, creates no backend
thread, and leaves the store untouched; and `subscribe_command` preserves
the at-most-one-session-per-chat_id invariant on every input. -/
theorem subscribe_already_subscribed_frame (db : Store) (pw cid nt : String)
    (now : DateTime) (hsub : is_user_subscribed db cid = true) :
    subscribe_command db [pw] pw cid nt now
        = ⟨db, ["You are already subscribed!"], false⟩
    ∧ ∀ (args : List String) (pw2 cid2 nt2 : String) (now2 : DateTime),
        (db.map Session.chat_id).Nodup →
        ((subscribe_command db args pw2 cid2 nt2 now2).db.map Session.chat_id).Nodup := by
  constructor
  · simp only [subscribe_command, bne_self_eq_false, Bool.false_eq_true, if_neg,
      ite_false, hsub, ite_true]
  · intro args pw2 cid2 nt2 now2 hnd
    match args with
    | [] => simpa [subscribe_command] using hnd
    | a :: c :: rest => simpa [subscribe_command] using hnd
    | [a] =>
      by_cases hpw : a = pw2
      · cases hfind : is_user_subscribed db cid2 with
        | true => simpa [subscribe_command, hpw, hfind] using hnd
        | false =>
          have hnot : cid2 ∉ db.map Session.chat_id := by
            intro hmem
            rw [← is_user_subscribed_iff db cid2] at hmem
            rw [hfind] at hmem
            exact Bool.false_ne_true hmem
          simp only [subscribe_command, hpw, hfind, bne_self_eq_false,
            Bool.false_eq_true, if_neg, ite_false, add_user]
          rw [List.map_append, List.nodup_append]
          exact ⟨hnd, List.nodup_singleton _, by
            intro x hx hx1
            rcases List.mem_singleton.mp hx1 with rfl
            exact hnot hx⟩
      · simpa [subscribe_command, hpw] using hnd

theorem subscribe_already_subscribed_frame_witness :
    is_user_subscribed db1 "c1" = true
    ∧ (subscribe_command db1 ["pw"] "pw" "c1" "t9" ⟨3, 0⟩
          = ⟨db1, ["You are already subscribed!"], false⟩
      ∧ ∀ (args : List String) (pw2 cid2 nt2 : String) (now2 : DateTime),
          (db1.map Session.chat_id).Nodup →
          ((subscribe_command db1 args pw2 cid2 nt2 now2).db.map Session.chat_id).Nodup) :=
  ⟨rfl, subscribe_already_subscribed_frame db1 "pw" "c1" "t9" ⟨3, 0⟩ rfl⟩

/-- Claim C6: for a chat_id absent from the store, every conversation-gated
handler (text, image, voice, file, help) replies with its refusal message
and returns with the store (and, for voice, the filesystem) unchanged, no
message appended to any thread and no backend dispatch. -/
theorem unauthorized_frame (db : Store) (fs : List String) (b : Backend)
    (cid : String) (now : DateTime) (s : String) (photos : List Photo)
    (cap : Option String) (vfid bn dfid : String)
    (h : is_user_subscribed db cid = false) :
    handle_text_message db b cid now s = ⟨db, [], [dumbReply], none⟩
    ∧ handle_image_message db b cid now photos cap = ⟨db, [], [dumbReply]⟩
    ∧ handle_voice_message db fs b cid now vfid bn = ⟨db, fs, [], [dumbReply]⟩
    ∧ handle_file_upload db b cid now dfid cap = ⟨db, [], [dumbReply]⟩
    ∧ help_command db cid = [helpRefusal] := by
  refine ⟨?_, ?_, ?_, ?_, ?_⟩ <;>
    simp [handle_text_message, handle_image_message, handle_voice_message,
      handle_file_upload, help_command, h]

theorem unauthorized_frame_witness :
    is_user_subscribed [] "c9" = false
    ∧ (handle_text_message [] okBackend "c9" ⟨1, 2⟩ "yo" = ⟨[], [], [dumbReply], none⟩
      ∧ handle_image_message [] okBackend "c9" ⟨1, 2⟩ [] none = ⟨[], [], [dumbReply]⟩
      ∧ handle_voice_message [] [] okBackend "c9" ⟨1, 2⟩ "v" "b" = ⟨[], [], [], [dumbReply]⟩
      ∧ handle_file_upload [] okBackend "c9" ⟨1, 2⟩ "d" none = ⟨[], [], [dumbReply]⟩
      ∧ help_command [] "c9" = [helpRefusal]) :=
  ⟨rfl, unauthorized_frame [] [] okBackend "c9" ⟨1, 2⟩ "yo" [] none "v" "b" "d" rfl⟩

/-- Claim C2 is false as stated: a dispatch failure in the text handler is
not caught inside the handler — it escapes (`handle_text_message` has no
try/except) and no user-facing reply is sent for that exchange. -/
theorem text_failure_escapes_counterexample :
    (handle_text_message db1 failMsgBackend "c1" ⟨2, 5⟩ "hello").escaped = some "boom"
    ∧ (handle_text_message db1 failMsgBackend "c1" ⟨2, 5⟩ "hello").replies = [] :=
  ⟨rfl, rfl⟩

/-- Claim C3 is false as stated: in the text handler a completed run with no
matching message raises an uncaught IndexError (`thread_messages[0]` on an
empty run-filtered listing) instead of replying with the empty string. -/
theorem text_no_match_raises_counterexample :
    (handle_text_message db1 noMatchBackend "c1" ⟨2, 5⟩ "hello").replies = []
    ∧ (handle_text_message db1 noMatchBackend "c1" ⟨2, 5⟩ "hello").escaped
        = some "IndexError: list index out of range" :=
  ⟨rfl, rfl⟩

/-- Claim C2 corrected: the handlers whose bodies sit inside try/except
(image, voice, file) convert every normalization or dispatch failure into
exactly one user-facing reply, for every backend behaviour and input; the
text handler is the exception (shown false separately). -/
theorem media_failures_always_replied (db : Store) (fs : List String) (b : Backend)
    (cid : String) (now : DateTime) (photos : List Photo) (cap : Option String)
    (vfid bn dfid : String) :
    (handle_image_message db b cid now photos cap).replies.length = 1
    ∧ (handle_voice_message db fs b cid now vfid bn).replies.length = 1
    ∧ (handle_file_upload db b cid now dfid cap).replies.length = 1 := by
  refine ⟨?_, ?_, ?_⟩
  · unfold handle_image_message
    repeat' first
      | rfl
      | split
      | simp only []
  · unfold handle_voice_message
    repeat' first
      | rfl
      | split
      | simp only []
  · unfold handle_file_upload
    repeat' first
      | rfl
      | split
      | simp only []

lemma extractFirst_head (msgs : List ThreadMsg) (m : ThreadMsg) (p : String)
    (h1 : msgs.head? = some m) (h2 : m.parts.head? = some p) :
    extractFirst msgs = .ok p := by
  cases msgs with
  | nil => cases h1
  | cons m0 rest =>
    have hm : m0 = m := by simpa using h1
    subst hm
    cases hp : m0.parts with
    | nil => rw [hp] at h2; cases h2
    | cons p0 ps =>
      rw [hp] at h2
      have hpp : p0 = p := by simpa using h2
      subst hpp
      simp [extractFirst, hp]

lemma extractLoop_last (msgs : List ThreadMsg) (rid : String) :
    ∀ acc : String,
    (∀ m ∈ msgs, (m.run_id == rid) = true → m.parts ≠ []) →
    extractLoop msgs rid acc =
      .ok (match (msgs.filter (fun m => m.run_id == rid)).getLast? with
           | none => acc
           | some m => m.parts.headD "") := by
  induction msgs with
  | nil => intro acc _; rfl
  | cons m rest ih =>
    intro acc h
    by_cases hm : (m.run_id == rid) = true
    · have hne := h m (List.mem_cons_self m rest) hm
      cases hp : m.parts with
      | nil => exact absurd hp hne
      | cons p ps =>
        have hstep : extractLoop (m :: rest) rid acc = extractLoop rest rid p := by
          simp [extractLoop, hm, hp]
        have hfc : List.filter (fun m2 => m2.run_id == rid) (m :: rest)
            = m :: List.filter (fun m2 => m2.run_id == rid) rest := by
          simp [List.filter_cons, hm]
        rw [hstep, ih p (fun x hx hrx => h x (List.mem_cons_of_mem m hx) hrx), hfc]
        cases hfl : rest.filter (fun m2 => m2.run_id == rid) with
        | nil => simp [hp]
        | cons x xs =>
          simp only [List.getLast?_cons_cons]
          cases hgl : (x :: xs).getLast? with
          | none => simp at hgl
          | some y => rfl
    · have hstep : extractLoop (m :: rest) rid acc = extractLoop rest rid acc := by
        simp [extractLoop, hm]
      have hfc : List.filter (fun m2 => m2.run_id == rid) (m :: rest)
          = List.filter (fun m2 => m2.run_id == rid) rest := by
        simp [List.filter_cons, hm]
      rw [hstep, ih acc (fun x hx hrx => h x (List.mem_cons_of_mem m hx) hrx), hfc]

/-- Claim C3 corrected: when the completed run produced no message tagged
with its run id, the image, voice and file handlers reply with the empty
string (success with empty text, sent to the user); the text handler
instead raises an IndexError which escapes it, with no reply sent. -/
theorem no_match_reply_behaviour (db : Store) (fs : List String) (b : Backend)
    (cid s : String) (now : DateTime) (q : Photo) (qs : List Photo)
    (cap : Option String) (vfid bn dfid url tr fid rid : String)
    (msgs : List ThreadMsg)
    (hsub : is_user_subscribed db cid = true)
    (hmsg : ∀ t env, b.msgCreate t env = .ok ())
    (hrun : ∀ t, b.runCreate t = .ok rid)
    (hlist : ∀ t, b.msgsList t = .ok msgs)
    (hget : ∀ f2, b.getFile f2 = .ok url)
    (hdl : ∀ f2, b.download f2 = .ok ())
    (haf : ∀ p2, b.audioFrom p2 = .ok ())
    (hae : ∀ p2, b.audioExport p2 = .ok ())
    (htr : ∀ p2, b.translate p2 = .ok tr)
    (hby : ∀ f2, b.downloadBytes f2 = .ok ())
    (hfc : ∀ f2, b.filesCreate f2 = .ok fid)
    (hnm : ∀ m ∈ msgs, (m.run_id == rid) = false) :
    (handle_image_message db b cid now (q :: qs) cap).replies = [""]
    ∧ (handle_voice_message db fs b cid now vfid bn).replies = [""]
    ∧ (handle_file_upload db b cid now dfid cap).replies = [""]
    ∧ (handle_text_message db b cid now s).replies = []
    ∧ (handle_text_message db b cid now s).escaped
        = some "IndexError: list index out of range" := by
  have hloop : extractLoop msgs rid "" = .ok "" := extractLoop_nomatch msgs rid "" hnm
  have hfilter : msgs.filter (fun m => m.run_id == rid) = [] := by
    rw [List.filter_eq_nil_iff]
    intro m hmem
    simp [hnm m hmem]
  refine ⟨?_, ?_, ?_, ?_, ?_⟩ <;>
    simp [handle_image_message, handle_voice_message, handle_file_upload,
      handle_text_message, maxPhoto, hsub, hmsg, hrun, hlist, hget, hdl, haf,
      hae, htr, hby, hfc, hloop, hfilter, extractFirst]

theorem no_match_reply_behaviour_witness :
    is_user_subscribed db1 "c1" = true
    ∧ ((handle_image_message db1 noMatchBackend "c1" ⟨2, 5⟩ [⟨"p", 1⟩] none).replies = [""]
      ∧ (handle_voice_message db1 [] noMatchBackend "c1" ⟨2, 5⟩ "v" "b").replies = [""]
      ∧ (handle_file_upload db1 noMatchBackend "c1" ⟨2, 5⟩ "d" none).replies = [""]
      ∧ (handle_text_message db1 noMatchBackend "c1" ⟨2, 5⟩ "hello").replies = []
      ∧ (handle_text_message db1 noMatchBackend "c1" ⟨2, 5⟩ "hello").escaped
          = some "IndexError: list index out of range") :=
  ⟨rfl, no_match_reply_behaviour db1 [] noMatchBackend "c1" "hello" ⟨2, 5⟩ ⟨"p", 1⟩ []
    none "v" "b" "d" "url" "hi" "f1" "r1" [⟨"other", ["stale"]⟩] rfl
    (fun _t _e => rfl) (fun _t => rfl) (fun _t => rfl) (fun _f2 => rfl)
    (fun _f3 => rfl) (fun _p2 => rfl) (fun _p3 => rfl) (fun _p4 => rfl)
    (fun _f4 => rfl) (fun _f5 => rfl)
    (by intro m hm; simp at hm; subst hm; rfl)⟩

/-- Claim C4 corrected: the reply is always the first text part of a
run-matching message, but which message differs by handler: the text
handler takes the first message of the run-filtered listing, while the
image, voice and file handlers' overwrite loop yields the last matching
message, in the order the backend's listing returns them. -/
theorem reply_extraction_order (db : Store) (fs : List String) (b : Backend)
    (cid s : String) (now : DateTime) (q : Photo) (qs : List Photo)
    (cap : Option String) (vfid bn dfid url tr fid rid : String)
    (msgs : List ThreadMsg) (mfst mlst : ThreadMsg) (pf pl : String)
    (hsub : is_user_subscribed db cid = true)
    (hmsg : ∀ t env, b.msgCreate t env = .ok ())
    (hrun : ∀ t, b.runCreate t = .ok rid)
    (hlist : ∀ t, b.msgsList t = .ok msgs)
    (hget : ∀ f2, b.getFile f2 = .ok url)
    (hdl : ∀ f2, b.download f2 = .ok ())
    (haf : ∀ p2, b.audioFrom p2 = .ok ())
    (hae : ∀ p2, b.audioExport p2 = .ok ())
    (htr : ∀ p2, b.translate p2 = .ok tr)
    (hby : ∀ f2, b.downloadBytes f2 = .ok ())
    (hfc : ∀ f2, b.filesCreate f2 = .ok fid)
    (hparts : ∀ m ∈ msgs, (m.run_id == rid) = true → m.parts ≠ [])
    (hfst : (msgs.filter (fun m => m.run_id == rid)).head? = some mfst)
    (hlst : (msgs.filter (fun m => m.run_id == rid)).getLast? = some mlst)
    (hpf : mfst.parts.head? = some pf)
    (hpl : mlst.parts.head? = some pl) :
    (handle_text_message db b cid now s).replies = [pf]
    ∧ (handle_image_message db b cid now (q :: qs) cap).replies = [pl]
    ∧ (handle_voice_message db fs b cid now vfid bn).replies = [pl]
    ∧ (handle_file_upload db b cid now dfid cap).replies = [pl] := by
  have hxf : extractFirst (msgs.filter (fun m => m.run_id == rid)) = .ok pf :=
    extractFirst_head _ mfst pf hfst hpf
  have hxl : extractLoop msgs rid "" = .ok pl := by
    rw [extractLoop_last msgs rid "" hparts, hlst]
    simp [hpl]
  refine ⟨?_, ?_, ?_, ?_⟩ <;>
    simp [handle_text_message, handle_image_message, handle_voice_message,
      handle_file_upload, maxPhoto, hsub, hmsg, hrun, hlist, hget, hdl, haf,
      hae, htr, hby, hfc, hxf, hxl]

theorem reply_extraction_order_witness :
    is_user_subscribed db1 "c1" = true
    ∧ ((handle_text_message db1 twoMatchBackend "c1" ⟨2, 5⟩ "hello").replies = ["first"]
      ∧ (handle_image_message db1 twoMatchBackend "c1" ⟨2, 5⟩ [⟨"p", 1⟩] none).replies
          = ["second"]
      ∧ (handle_voice_message db1 [] twoMatchBackend "c1" ⟨2, 5⟩ "v" "b").replies
          = ["second"]
      ∧ (handle_file_upload db1 twoMatchBackend "c1" ⟨2, 5⟩ "d" none).replies
          = ["second"]) :=
  ⟨rfl, reply_extraction_order db1 [] twoMatchBackend "c1" "hello" ⟨2, 5⟩ ⟨"p", 1⟩ []
    none "v" "b" "d" "url" "hi" "f1" "r1" [⟨"r1", ["first"]⟩, ⟨"r1", ["second"]⟩]
    ⟨"r1", ["first"]⟩ ⟨"r1", ["second"]⟩ "first" "second" rfl
    (fun _u _e => rfl) (fun _u => rfl) (fun _u => rfl) (fun _g2 => rfl)
    (fun _g3 => rfl) (fun _q2 => rfl) (fun _q3 => rfl) (fun _q4 => rfl)
    (fun _g4 => rfl) (fun _g5 => rfl)
    (by intro m hm _; simp at hm; rcases hm with rfl | rfl <;> simp)
    rfl rfl rfl rfl⟩

/-- Claim C9: a text input `s` at instant `now` is normalized to a single
text part `render now ++ " - " ++ s`, and against a backend whose run
echoes that envelope back as the run's sole message, the same string is
returned to the caller as the reply. -/
theorem text_round_trip (db : Store) (b : Backend) (cid s rid : String)
    (now : DateTime)
    (hsub : is_user_subscribed db cid = true)
    (hmsg : ∀ t env, b.msgCreate t env = .ok ())
    (hrun : ∀ t, b.runCreate t = .ok rid)
    (hlist : ∀ t, b.msgsList t
        = .ok [⟨rid, [DateTime.render now ++ " - " ++ s]⟩]) :
    (handle_text_message db b cid now s).sent
        = [[Part.text (DateTime.render now ++ " - " ++ s)]]
    ∧ (handle_text_message db b cid now s).replies
        = [DateTime.render now ++ " - " ++ s]
    ∧ (handle_text_message db b cid now s).escaped = none := by
  refine ⟨?_, ?_, ?_⟩ <;>
    simp [handle_text_message, hsub, hmsg, hrun, hlist, extractFirst]

theorem text_round_trip_witness :
    is_user_subscribed db1 "c1" = true
    ∧ ((handle_text_message db1
          { okBackend with msgsList := fun _ => .ok [⟨"r1", ["2T5 - hello"]⟩] }
          "c1" ⟨2, 5⟩ "hello").sent = [[Part.text ("2T5 - hello")]]
      ∧ (handle_text_message db1
          { okBackend with msgsList := fun _ => .ok [⟨"r1", ["2T5 - hello"]⟩] }
          "c1" ⟨2, 5⟩ "hello").replies = ["2T5 - hello"]
      ∧ (handle_text_message db1
          { okBackend with msgsList := fun _ => .ok [⟨"r1", ["2T5 - hello"]⟩] }
          "c1" ⟨2, 5⟩ "hello").escaped = none) := by
  have h := text_round_trip db1
    { okBackend with msgsList := fun _ => .ok [⟨"r1", ["2T5 - hello"]⟩] }
    "c1" "hello" "r1" ⟨2, 5⟩ rfl (fun _ _ => rfl) (fun _ => rfl)
    (fun _ => by rfl)
  exact ⟨rfl, by simpa using h⟩

/-! ### Lemmas about the re-engagement scan -/

lemma update_preserves_chat_id (c : String) (now : DateTime) (u : Session) :
    ((if u.chat_id == c then { u with last_interaction := some now } else u) :
      Session).chat_id = u.chat_id := by
  split <;> rfl

lemma lookup_update_ne (db : Store) (c cid : String) (now : DateTime)
    (h : ¬ c = cid) :
    lookupRow (update_last_interaction db c now) cid = lookupRow db cid := by
  unfold lookupRow update_last_interaction
  rw [List.find?_map]
  have hp : ((fun u : Session => u.chat_id == cid) ∘
      (fun u : Session =>
        if u.chat_id == c then { u with last_interaction := some now } else u))
      = fun u : Session => u.chat_id == cid := by
    funext u
    simp only [Function.comp]
    congr 1
    exact update_preserves_chat_id c now u
  rw [hp]
  cases hf : db.find? (fun u => u.chat_id == cid) with
  | none => rfl
  | some u0 =>
    have hu0 : (u0.chat_id == cid) = true := by
      have h0 := List.find?_some hf
      simpa using h0
    have hne : ¬ u0.chat_id = c := by
      intro hc
      apply h
      rw [← hc]
      simpa using hu0
    simp [hne]

lemma lookup_update_self (db : Store) (cid : String) (now : DateTime) :
    lookupRow (update_last_interaction db cid now) cid
      = (lookupRow db cid).map (fun u => { u with last_interaction := some now }) := by
  unfold lookupRow update_last_interaction
  rw [List.find?_map]
  have hp : ((fun u : Session => u.chat_id == cid) ∘
      (fun u : Session =>
        if u.chat_id == cid then { u with last_interaction := some now } else u))
      = fun u : Session => u.chat_id == cid := by
    funext u
    simp only [Function.comp]
    congr 1
    exact update_preserves_chat_id cid now u
  rw [hp]
  cases hf : db.find? (fun u => u.chat_id == cid) with
  | none => rfl
  | some u0 =>
    have hu0 : (u0.chat_id == cid) = true := by
      have h0 := List.find?_some hf
      simpa using h0
    have hcid : u0.chat_id = cid := by simpa using hu0
    simp [hcid]

lemma lookup_mem_nodup (db : Store) (u : Session)
    (hnd : (db.map Session.chat_id).Nodup) (hu : u ∈ db) :
    lookupRow db u.chat_id = some u := by
  induction db with
  | nil => cases hu
  | cons v rest ih =>
    rcases List.mem_cons.mp hu with rfl | hmem
    · unfold lookupRow
      rw [List.find?_cons_of_pos _ (by simp)]
    · have hvne : ¬ v.chat_id = u.chat_id := by
        intro he
        rw [List.map_cons, List.nodup_cons] at hnd
        exact hnd.1 (he ▸ List.mem_map_of_mem Session.chat_id hmem)
      unfold lookupRow
      rw [List.find?_cons_of_neg _ (by simpa using hvne)]
      rw [List.map_cons, List.nodup_cons] at hnd
      exact ih hnd.2 hmem

lemma morning_step_db (b : Backend) (now : DateTime) (st : ScanResult) (u : Session) :
    (morning_step b now st u).db = st.db
    ∨ (morning_step b now st u).db = update_last_interaction st.db u.chat_id now := by
  cases hli : u.last_interaction with
  | none => left; simp [morning_step, hli]
  | some li =>
    by_cases hd : li.date < now.date
    · cases hm : b.msgCreate (some u.thread_id) [Part.text (morning_message now)] with
      | error e => left; simp [morning_step, hli, hd, hm]
      | ok a =>
        cases hr : b.runCreate (some u.thread_id) with
        | error e => left; simp [morning_step, hli, hd, hm, hr]
        | ok a2 => right; simp [morning_step, hli, hd, hm, hr]
    · left; simp [morning_step, hli, hd]

lemma foldl_db_frame (b : Backend) (now : DateTime) :
    ∀ (l : List Session) (st : ScanResult) (cid : String),
    cid ∉ l.map Session.chat_id →
    lookupRow (l.foldl (morning_step b now) st).db cid = lookupRow st.db cid := by
  intro l
  induction l with
  | nil => intro st cid _; rfl
  | cons u rest ih =>
    intro st cid hcid
    have hne : ¬ u.chat_id = cid := by
      intro he
      exact hcid (by rw [List.map_cons]; exact he ▸ List.mem_cons_self _ _)
    have hrest : cid ∉ rest.map Session.chat_id := by
      intro hmem
      exact hcid (by rw [List.map_cons]; exact List.mem_cons_of_mem _ hmem)
    rw [List.foldl_cons, ih (morning_step b now st u) cid hrest]
    rcases morning_step_db b now st u with hdb | hdb
    · rw [hdb]
    · rw [hdb, lookup_update_ne st.db u.chat_id cid now hne]

lemma foldl_attempted (b : Backend) (now : DateTime) :
    ∀ (l : List Session) (st : ScanResult),
    (l.foldl (morning_step b now) st).attempted
      = st.attempted ++ (l.filter (due now)).map Session.chat_id := by
  intro l
  induction l with
  | nil => intro st; simp
  | cons u rest ih =>
    intro st
    rw [List.foldl_cons]
    cases hli : u.last_interaction with
    | none =>
      have hstep : morning_step b now st u = st := by simp [morning_step, hli]
      have hdue : due now u = false := by simp [due, hli]
      rw [hstep, ih, List.filter_cons, hdue]
      simp
    | some li =>
      by_cases hd : li.date < now.date
      · have hdue : due now u = true := by simp [due, hli, hd]
        have hstep : (morning_step b now st u).attempted
            = st.attempted ++ [u.chat_id] := by
          simp only [morning_step, hli]
          rw [if_pos hd]
          cases b.msgCreate (some u.thread_id) [Part.text (morning_message now)] with
          | error e => rfl
          | ok a =>
            cases b.runCreate (some u.thread_id) with
            | error e => rfl
            | ok a2 => rfl
        rw [ih, hstep, List.filter_cons, hdue]
        simp
      · have hstep : morning_step b now st u = st := by
          simp [morning_step, hli, hd]
        have hdue : due now u = false := by simp [due, hli, hd]
        rw [hstep, ih, List.filter_cons, hdue]
        simp

/-- The net effect of the scan on one row `u` of the table: updated to `now`
exactly when the row was due and its dispatch succeeded, untouched
otherwise. -/
lemma morning_check_row (db : Store) (b : Backend) (now : DateTime) (u : Session)
    (hnd : (db.map Session.chat_id).Nodup) (hu : u ∈ db) :
    lookupRow (morning_check db b now).db u.chat_id =
      if due now u && dispatchOk b now u then
        some { u with last_interaction := some now }
      else some u := by
  obtain ⟨l1, l2, hsplit⟩ := List.append_of_mem hu
  have hnl1 : u.chat_id ∉ l1.map Session.chat_id := by
    intro hmem
    have hmap := hnd
    rw [hsplit, List.map_append, List.map_cons, List.nodup_append] at hmap
    exact hmap.2.2 hmem (List.mem_cons_self _ _)
  have hnl2 : u.chat_id ∉ l2.map Session.chat_id := by
    intro hmem
    have hmap := hnd
    rw [hsplit, List.map_append, List.map_cons, List.nodup_append,
      List.nodup_cons] at hmap
    exact hmap.2.1.1 hmem
  unfold morning_check
  rw [hsplit, List.foldl_append, List.foldl_cons]
  have hframe1 : lookupRow (l1.foldl (morning_step b now)
      ⟨l1 ++ u :: l2, []⟩).db u.chat_id = some u := by
    rw [foldl_db_frame b now l1 _ _ hnl1]
    exact lookup_mem_nodup _ u (hsplit ▸ hnd) (hsplit ▸ hu)
  rw [foldl_db_frame b now l2 _ _ hnl2]
  cases hli : u.last_interaction with
  | none =>
    have hstep := morning_step_db b now
      (l1.foldl (morning_step b now) ⟨l1 ++ u :: l2, []⟩) u
    have hdue : due now u = false := by simp [due, hli]
    have hsame : morning_step b now
        (l1.foldl (morning_step b now) ⟨l1 ++ u :: l2, []⟩) u
        = l1.foldl (morning_step b now) ⟨l1 ++ u :: l2, []⟩ := by
      simp [morning_step, hli]
    rw [hsame, hframe1, hdue]
    rfl
  | some li =>
    by_cases hd : li.date < now.date
    · have hdue : due now u = true := by simp [due, hli, hd]
      cases hm : b.msgCreate (some u.thread_id) [Part.text (morning_message now)] with
      | error e =>
        have hdok : dispatchOk b now u = false := by simp [dispatchOk, exOk, hm]
        have hsame : (morning_step b now
            (l1.foldl (morning_step b now) ⟨l1 ++ u :: l2, []⟩) u).db
            = (l1.foldl (morning_step b now) ⟨l1 ++ u :: l2, []⟩).db := by
          simp [morning_step, hli, hd, hm]
        rw [hsame, hframe1, hdue, hdok]
        rfl
      | ok a =>
        cases hr : b.runCreate (some u.thread_id) with
        | error e =>
          have hdok : dispatchOk b now u = false := by
            simp [dispatchOk, exOk, hm, hr]
          have hsame : (morning_step b now
              (l1.foldl (morning_step b now) ⟨l1 ++ u :: l2, []⟩) u).db
              = (l1.foldl (morning_step b now) ⟨l1 ++ u :: l2, []⟩).db := by
            simp [morning_step, hli, hd, hm, hr]
          rw [hsame, hframe1, hdue, hdok]
          rfl
        | ok a2 =>
          have hdok : dispatchOk b now u = true := by
            simp [dispatchOk, exOk, hm, hr]
          have hsame : (morning_step b now
              (l1.foldl (morning_step b now) ⟨l1 ++ u :: l2, []⟩) u).db
              = update_last_interaction
                  (l1.foldl (morning_step b now) ⟨l1 ++ u :: l2, []⟩).db
                  u.chat_id now := by
            simp [morning_step, hli, hd, hm, hr]
          rw [hsame, lookup_update_self, hframe1, hdue, hdok]
          rfl
    · have hdue : due now u = false := by simp [due, hli, hd]
      have hsame : morning_step b now
          (l1.foldl (morning_step b now) ⟨l1 ++ u :: l2, []⟩) u
          = l1.foldl (morning_step b now) ⟨l1 ++ u :: l2, []⟩ := by
        simp [morning_step, hli, hd]
      rw [hsame, hframe1, hdue]
      rfl

/-- Claim C4 is false as stated: when a run produced two matching messages,
the image handler's extraction loop overwrites the reply on every match and
returns the text of the last matching message, not the first. -/
theorem image_reply_not_first_match_counterexample :
    (handle_image_message db1 twoMatchBackend "c1" ⟨2, 5⟩ [⟨"p", 1⟩] none).replies
        = ["second"]
    ∧ (handle_image_message db1 twoMatchBackend "c1" ⟨2, 5⟩ [⟨"p", 1⟩] none).replies
        ≠ ["first"] := by
  refine ⟨rfl, by decide⟩

/-! ### Re-engagement scan fixtures -/

/-- Session A: touched today (relative to `now = ⟨5, 10⟩`). -/
def sessA : Session := ⟨"a", "ta", ⟨1, 0⟩, some ⟨5, 0⟩⟩

/-- Session B: last touched yesterday. -/
def sessB : Session := ⟨"bb", "tb", ⟨1, 0⟩, some ⟨4, 0⟩⟩

/-- Session C: last touched yesterday, and its thread's backend call fails. -/
def sessC : Session := ⟨"cc", "tc", ⟨1, 0⟩, some ⟨4, 3⟩⟩

/-- Session N: NULL `last_interaction` (legacy row). -/
def sessN : Session := ⟨"nn", "tn", ⟨1, 0⟩, none⟩

def dbScan : Store := [sessA, sessB, sessC, sessN]

/-- Backend failing exactly on session C's thread. -/
def failCBackend : Backend :=
  { okBackend with
    msgCreate := fun t _ => if t == some "tc" then .error "boom" else .ok () }

/-- Claim C7: the re-engagement scan attempts a dispatch exactly for the
sessions whose `last_interaction` calendar date is strictly earlier than
today's; every such session whose dispatch succeeds has its
`last_interaction` set to now, and every session that is not due (touched
today, or dated in the future) is left completely untouched. -/
theorem morning_check_dispatches_exactly_due (db : Store) (b : Backend)
    (now : DateTime) (hnd : (db.map Session.chat_id).Nodup) :
    (morning_check db b now).attempted = (db.filter (due now)).map Session.chat_id
    ∧ (∀ u ∈ db, due now u = true → dispatchOk b now u = true →
        lookupRow (morning_check db b now).db u.chat_id
          = some { u with last_interaction := some now })
    ∧ (∀ u ∈ db, due now u = false →
        lookupRow (morning_check db b now).db u.chat_id = some u) := by
  refine ⟨?_, ?_, ?_⟩
  · unfold morning_check
    rw [foldl_attempted]
    rfl
  · intro u hu hdue hdok
    rw [morning_check_row db b now u hnd hu, hdue, hdok]
    rfl
  · intro u hu hdue
    rw [morning_check_row db b now u hnd hu, hdue]
    rfl

theorem morning_check_dispatches_exactly_due_witness :
    ((dbScan.map Session.chat_id).Nodup)
    ∧ (morning_check dbScan failCBackend ⟨5, 10⟩).attempted
        = (dbScan.filter (due ⟨5, 10⟩)).map Session.chat_id
    ∧ (morning_check dbScan failCBackend ⟨5, 10⟩).attempted = ["bb", "cc"]
    ∧ lookupRow (morning_check dbScan failCBackend ⟨5, 10⟩).db "bb"
        = some { sessB with last_interaction := some ⟨5, 10⟩ } := by
  have h := morning_check_dispatches_exactly_due dbScan failCBackend ⟨5, 10⟩
    (by decide)
  exact ⟨by decide, h.1, by decide, by decide⟩

/-- Claim C8: a backend failure while processing one due session is caught
inside the scan: the failing session's row is left untouched, the scan
still attempts every due session (the failure aborts nothing), and
`morning_check` returns normally (it is a total function of its inputs). -/
theorem morning_check_failure_isolated (db : Store) (b : Backend)
    (now : DateTime) (u : Session) (hnd : (db.map Session.chat_id).Nodup)
    (hu : u ∈ db) (hdue : due now u = true)
    (hfail : dispatchOk b now u = false) :
    lookupRow (morning_check db b now).db u.chat_id = some u
    ∧ (morning_check db b now).attempted
        = (db.filter (due now)).map Session.chat_id
    ∧ u.chat_id ∈ (morning_check db b now).attempted := by
  refine ⟨?_, ?_, ?_⟩
  · rw [morning_check_row db b now u hnd hu, hdue, hfail]
    rfl
  · unfold morning_check
    rw [foldl_attempted]
    rfl
  · unfold morning_check
    rw [foldl_attempted]
    simp only [List.nil_append]
    exact List.mem_map_of_mem _ (List.mem_filter.mpr ⟨hu, hdue⟩)

theorem morning_check_failure_isolated_witness :
    ((dbScan.map Session.chat_id).Nodup ∧ sessC ∈ dbScan
      ∧ due ⟨5, 10⟩ sessC = true
      ∧ dispatchOk failCBackend ⟨5, 10⟩ sessC = false)
    ∧ (lookupRow (morning_check dbScan failCBackend ⟨5, 10⟩).db "cc" = some sessC
      ∧ (morning_check dbScan failCBackend ⟨5, 10⟩).attempted
          = (dbScan.filter (due ⟨5, 10⟩)).map Session.chat_id
      ∧ "cc" ∈ (morning_check dbScan failCBackend ⟨5, 10⟩).attempted) := by
  have h := morning_check_failure_isolated dbScan failCBackend ⟨5, 10⟩ sessC
    (by decide) (by decide) (by decide) (by decide)
  exact ⟨⟨by decide, by decide, by decide, by decide⟩, h⟩

/-- Claim C10: a session whose `last_interaction` is absent (NULL/empty,
modelled `none`) is skipped entirely by the scan: no dispatch is attempted
for it and its row is not modified, regardless of its age. -/
theorem morning_check_skips_absent_recency (db : Store) (b : Backend)
    (now : DateTime) (u : Session) (hnd : (db.map Session.chat_id).Nodup)
    (hu : u ∈ db) (hnull : u.last_interaction = none) :
    u.chat_id ∉ (morning_check db b now).attempted
    ∧ lookupRow (morning_check db b now).db u.chat_id = some u := by
  have hdue : due now u = false := by simp [due, hnull]
  constructor
  · unfold morning_check
    rw [foldl_attempted]
    simp only [List.nil_append]
    intro hmem
    rcases List.mem_map.mp hmem with ⟨v, hv, hveq⟩
    have hvf := List.mem_filter.mp hv
    have hvu : v = u :=
      List.inj_on_of_nodup_map hnd (List.mem_of_mem_filter hv) hu hveq
    rw [hvu, hdue] at hvf
    exact Bool.false_ne_true hvf.2
  · rw [morning_check_row db b now u hnd hu, hdue]
    rfl

theorem morning_check_skips_absent_recency_witness :
    ((dbScan.map Session.chat_id).Nodup ∧ sessN ∈ dbScan
      ∧ sessN.last_interaction = none)
    ∧ ("nn" ∉ (morning_check dbScan okBackend ⟨5, 10⟩).attempted
      ∧ lookupRow (morning_check dbScan okBackend ⟨5, 10⟩).db "nn" = some sessN) := by
  have h := morning_check_skips_absent_recency dbScan okBackend ⟨5, 10⟩ sessN
    (by decide) (by decide) rfl
  exact ⟨⟨by decide, by decide, rfl⟩, h⟩

end CoachBot
